import Mathlib

/-!
Shallow embedding of the FastAPI car-models service (`src/main.py`): the
configuration constants, the user/auth flow (`get_user`, `authenticate_user`,
`create_access_token`, `get_current_user`, `login_for_access_token`) and the
car-model CRUD handlers (`read_car_models`, `create_car_model`,
`read_car_model`, `update_car_model`, `delete_car_model`,
`upload_car_model_image`, `update_car_model_image`).

Modelling conventions:
* The SQLite `car_models` table is a list of rows together with the
  AUTOINCREMENT counter `nextId` (strictly larger than every id ever
  assigned); the `users` table is a list of rows.
* `REAL` prices become `Rat` (the handlers only ever compare prices, there
  is no float arithmetic); `TEXT` columns are `String`, `year INTEGER` is
  `Int`, ids are `Nat`.
* A JWT is modelled structurally as its claims together with the signing key
  and the algorithm; `jose.jwt.decode(token, key, algorithms)` succeeds
  exactly when the key matches, the algorithm is in the allowed list and the
  `exp` claim has not elapsed (python-jose raises `ExpiredSignatureError`, a
  subclass of `JWTError`, when `exp < now`).  Malformed token strings are
  outside the model; the only payload keys the program uses, `sub` and
  `exp`, are the fields of `Claims`.
* Python exceptions are the `PyError` type: an `HTTPException` carries its
  status code, detail string and whether a `WWW-Authenticate: Bearer` header
  is attached; a `TypeError` is a separate constructor (FastAPI surfaces it
  as a 500 server error, not as an `HTTPException`).
* `datetime.utcnow()` becomes an explicit `now : Int` parameter (unix
  seconds); `timedelta` values are seconds.  Python truthiness is kept:
  `if expires_delta:` is false for `None` and for `timedelta(0)`, and
  `if username:` is false exactly for the empty string.
* Handlers run behind the `get_current_active_user` dependency; the
  `current_user` argument is elided in handlers that do not read it, and the
  route decorator status codes (201 for the POST image route, 202 for the
  PUT/DELETE routes) are recorded in the comments of each handler.
* Detail strings that in the source wrap a value in single quotes are
  rendered here without the quote characters.
-/

namespace CarService

/-- Configuration constants from the top of `src/main.py`. -/
def IMAGE_DIR : String := "uploaded_images"

def SECRET_KEY : String := "c1591e1c961c5da73be50b329c8390a2ec7d38c3e5615152ec10f4c0202fbaa4"

def ALGORITHM : String := "HS256"

def ACCESS_TOKEN_EXPIRE_MINUTES : Int := 30

/-- Python exception values that a handler can raise.  `http` is FastAPI
`HTTPException(status_code, detail, headers)` where the `Bool` records
whether the `WWW-Authenticate: Bearer` header is present; `typeError` is a
Python `TypeError` escaping the handler (surfaced as HTTP 500). -/
inductive PyError where
  | http (status : Nat) (detail : String) (challengeBearer : Bool)
  | typeError (msg : String)
deriving DecidableEq, Repr

/-- Row of the `users` table (`create_tables_users`): `disabled INTEGER NOT
NULL DEFAULT 0` is modelled as `Bool`. -/
structure UserRow where
  id : Nat
  username : String
  email : String
  full_name : Option String
  hashed_password : String
  disabled : Bool
deriving DecidableEq, Repr

/-- Pydantic `UserInDB` (fields of `User` plus `hashed_password`); the row
id is dropped because `UserInDB` has no `id` field and pydantic ignores
extra keys. -/
structure UserInDB where
  username : String
  email : Option String
  full_name : Option String
  disabled : Option Bool
  hashed_password : String
deriving DecidableEq, Repr

def rowToUserInDB (r : UserRow) : UserInDB :=
  { username := r.username, email := some r.email, full_name := r.full_name,
    disabled := some r.disabled, hashed_password := r.hashed_password }

/-- Message of the `TypeError` raised by `UserInDB(**user)` when `user` is
`None`. -/
def typeErrorMsg : String := "argument after double-star must be a mapping, not NoneType"

/-- `get_user` (src/main.py lines 118-123).  The source reads

    user = conn.execute(SELECT * FROM users WHERE username = ?).fetchone()
    if username:
        return UserInDB(**user)

so the guard tests the `username` ARGUMENT (string truthiness), not the
fetched row: for a non-empty username with no matching row, `user` is
`None` and `UserInDB(**None)` raises `TypeError`; for an empty username the
function falls through and returns `None`. -/
def get_user (udb : List UserRow) (username : String) : Except PyError (Option UserInDB) :=
  let row := udb.find? (fun r => r.username == username)
  if username = "" then
    .ok none
  else
    match row with
    | none => .error (.typeError typeErrorMsg)
    | some r => .ok (some (rowToUserInDB r))

/-- `authenticate_user` (src/main.py lines 126-132).  Returns Python `False`
(here `none`) when the user is absent or the password does not verify,
otherwise the user.  `verify` abstracts `pwd_context.verify` (bcrypt):
`verify plain hashed` is whether `plain` verifies against `hashed`. -/
def authenticate_user (verify : String → String → Bool) (udb : List UserRow)
    (username password : String) : Except PyError (Option UserInDB) :=
  match get_user udb username with
  | .error e => .error e
  | .ok none => .ok none
  | .ok (some user) =>
    if verify password user.hashed_password then .ok (some user) else .ok none

/-- JWT payload keys used by the program. -/
structure Claims where
  sub : Option String
  exp : Int
deriving DecidableEq, Repr

/-- A structurally modelled signed token: `jwt.encode(claims, key,
algorithm)` packages exactly these three components. -/
structure JWT where
  claims : Claims
  key : String
  alg : String
deriving DecidableEq, Repr

/-- `jose.jwt.decode(token, key, algorithms)` at time `now`: succeeds (and
returns the payload) iff the signature verifies (same key), the algorithm
is allowed, and the `exp` claim has not elapsed; `none` stands for a raised
`JWTError` (including `ExpiredSignatureError`). -/
def jwtDecode (token : JWT) (key : String) (algs : List String) (now : Int) : Option Claims :=
  if token.key = key ∧ token.alg ∈ algs ∧ now ≤ token.claims.exp then
    some token.claims
  else
    none

/-- `create_access_token` (src/main.py lines 135-143).  The only payload key
the callers pass in `data` is `sub`, so `data` is modelled as the optional
subject.  `if expires_delta:` is Python truthiness: `None` and
`timedelta(0)` both fall to the default branch, which uses
`timedelta(minutes=15)`. -/
def create_access_token (now : Int) (dataSub : Option String)
    (expires_delta : Option Int) : JWT :=
  let expire : Int :=
    match expires_delta with
    | some d => if d ≠ 0 then now + d else now + 15 * 60
    | none => now + 15 * 60
  { claims := { sub := dataSub, exp := expire }, key := SECRET_KEY, alg := ALGORITHM }

/-- The `credential_exception` of `get_current_user`: 401 with a
`WWW-Authenticate: Bearer` header. -/
def credential_exception : PyError :=
  .http 401 "Could not validate credentials" true

/-- `get_current_user` (src/main.py lines 146-163): decode the token with
`SECRET_KEY` and `[ALGORITHM]`, raise `credential_exception` on `JWTError`
or a missing `sub` claim, then look the username up and raise
`credential_exception` when no user comes back. -/
def get_current_user (udb : List UserRow) (now : Int) (token : JWT) :
    Except PyError UserInDB :=
  match jwtDecode token SECRET_KEY [ALGORITHM] now with
  | none => .error credential_exception
  | some payload =>
    match payload.sub with
    | none => .error credential_exception
    | some username =>
      match get_user udb username with
      | .error e => .error e
      | .ok none => .error credential_exception
      | .ok (some user) => .ok user

/-- Response body of the `/token` route. -/
structure TokenOut where
  access_token : JWT
  token_type : String
deriving DecidableEq, Repr

/-- `login_for_access_token` (src/main.py lines 172-181): authenticate, 401
with a Bearer challenge when that returns `False`, otherwise issue a token
for the username with a 30-minute expiry override. -/
def login_for_access_token (verify : String → String → Bool) (udb : List UserRow)
    (now : Int) (username password : String) : Except PyError TokenOut :=
  match authenticate_user verify udb username password with
  | .error e => .error e
  | .ok none => .error (.http 401 "Incorrect username or password" true)
  | .ok (some user) =>
    .ok { access_token := create_access_token now (some user.username)
            (some (ACCESS_TOKEN_EXPIRE_MINUTES * 60)),
          token_type := "bearer" }

/-- Pydantic `CarModel`: request body of the create/update routes. -/
structure CarModel where
  manufacturer : String
  model : String
  year : Int
  price : Rat
deriving DecidableEq, Repr

/-- Pydantic `CarModelInDB`: `CarModel` plus the store-assigned id; the
response model of the CRUD routes (FastAPI drops any extra keys such as
`image_path` when serialising through this model). -/
structure CarModelInDB where
  id : Nat
  manufacturer : String
  model : String
  year : Int
  price : Rat
deriving DecidableEq, Repr

/-- Row of the `car_models` table (`create_tables_car_models`):
`image_path TEXT` is nullable. -/
structure CarRow where
  id : Nat
  manufacturer : String
  model : String
  year : Int
  price : Rat
  image_path : Option String
deriving DecidableEq, Repr

/-- The `car_models` database: rows in insertion order plus the
AUTOINCREMENT counter (SQLite assigns `nextId` to the next insert and never
reuses ids; every stored id is below `nextId`). -/
structure CarDB where
  rows : List CarRow
  nextId : Nat
deriving DecidableEq, Repr

/-- Projection applied by `response_model=CarModelInDB`. -/
def rowToCarModelInDB (r : CarRow) : CarModelInDB :=
  { id := r.id, manufacturer := r.manufacturer, model := r.model,
    year := r.year, price := r.price }

/-- The five column names that the list route's OpenAPI documentation
enumerates for `sort_by` (`Query(None, enum=["id", "manufacturer",
"model", "year", "price"])`).  The `enum=` keyword is documentation only —
FastAPI performs NO runtime validation against it, so the handler's
`sort_by` really ranges over every string; these five are the `ORDER BY`
targets whose SQLite semantics this model interprets. -/
inductive SortColumn where
  | id
  | manufacturer
  | model
  | year
  | price
deriving DecidableEq, Repr

/-- SQLite `ORDER BY <col> ASC` comparison for each interpreted column. -/
def columnLe (col : SortColumn) (a b : CarRow) : Bool :=
  match col with
  | .id => a.id ≤ b.id
  | .manufacturer => decide (a.manufacturer ≤ b.manufacturer)
  | .model => decide (a.model ≤ b.model)
  | .year => decide (a.year ≤ b.year)
  | .price => decide (a.price ≤ b.price)

/-- Which of the five interpreted column names a raw `sort_by` string is,
if any. -/
def columnOf (s : String) : Option SortColumn :=
  if s = "id" then some .id
  else if s = "manufacturer" then some .manufacturer
  else if s = "model" then some .model
  else if s = "year" then some .year
  else if s = "price" then some .price
  else none

/-- `ORDER BY <col>` with the direction chosen by
`'DESC' if descending else 'ASC'`: both `None` and `False` give `ASC`. -/
def orderRows (col : SortColumn) (descending : Option Bool)
    (rows : List CarRow) : List CarRow :=
  if descending = some true then
    rows.mergeSort (fun a b => columnLe col b a)
  else
    rows.mergeSort (fun a b => columnLe col a b)

/-- SQLite `LIMIT ?`: a negative limit means no upper bound on the number
of returned rows; otherwise at most `limit` rows come back. -/
def sqlLimit (limit : Int) (rows : List CarRow) : List CarRow :=
  if limit < 0 then rows else rows.take limit.toNat

/-- The `final_query` text of `read_car_models` (src/main.py lines
201-203), assembled exactly as the source f-strings do: the raw `sort_by`
string is interpolated straight into the SQL, and `if sort_by:` is Python
truthiness, so both `None` and the empty string drop the ORDER BY
clause. -/
def finalQuery (sort_by : Option String) (descending : Option Bool) : String :=
  let base_query := "SELECT * FROM car_models"
  let order_clause :=
    match sort_by with
    | some s =>
      if s ≠ "" then
        " ORDER BY " ++ s ++ " "
          ++ (if descending = some true then "DESC" else "ASC")
      else ""
    | none => ""
  base_query ++ order_clause ++ " LIMIT ?"

/-- Result of handing `finalQuery` to SQLite.  `results` carries the row
list of the queries this model interprets (no ORDER BY, or ORDER BY one of
the five column names).  `unmodelled` records — by its raw SQL text — an
execution whose `sort_by` was any other string: the program still executes
that attacker-chosen SQL (it may be a syntax error, or e.g. a `--` comment
sequence that disables the trailing `LIMIT ?` so that more than `limit`
rows come back), but its semantics belong to SQLite's full SQL dialect and
are deliberately left uninterpreted here rather than guessed. -/
inductive QueryResult where
  | results (l : List CarModelInDB)
  | unmodelled (query : String)
deriving DecidableEq, Repr

/-- `read_car_models` (src/main.py lines 194-209): execute `finalQuery`
with the single `limit` binding and serialise the rows through
`CarModelInDB`.  The branches follow the assembled query text: absent or
empty `sort_by` gives the bare `SELECT * FROM car_models LIMIT ?`; a
`sort_by` equal to one of the five interpreted column names gives
`SELECT * FROM car_models ORDER BY col ASC|DESC LIMIT ?`; every other
string escapes the interpreted fragment (`unmodelled`), carrying the raw
query built by `finalQuery`.  The route default for `limit` is 10. -/
def read_car_models (db : CarDB) (limit : Int) (sort_by : Option String)
    (descending : Option Bool) : QueryResult :=
  match sort_by with
  | none => .results ((sqlLimit limit db.rows).map rowToCarModelInDB)
  | some s =>
    if s = "" then
      .results ((sqlLimit limit db.rows).map rowToCarModelInDB)
    else
      match columnOf s with
      | some col =>
        .results ((sqlLimit limit (orderRows col descending db.rows)).map rowToCarModelInDB)
      | none => .unmodelled (finalQuery sort_by descending)

/-- `create_car_model` (src/main.py lines 212-222): INSERT the four fields
(`image_path` stays NULL), then return the body plus
`cursor.lastrowid`. -/
def create_car_model (db : CarDB) (cm : CarModel) : CarDB × CarModelInDB :=
  let newRow : CarRow :=
    { id := db.nextId, manufacturer := cm.manufacturer, model := cm.model,
      year := cm.year, price := cm.price, image_path := none }
  ({ rows := db.rows ++ [newRow], nextId := db.nextId + 1 },
   { id := db.nextId, manufacturer := cm.manufacturer, model := cm.model,
     year := cm.year, price := cm.price })

/-- Detail string of the 404 of `read_car_model` (the source wraps the id in
single quotes, elided here). -/
def readNotFoundDetail (car_model_id : Nat) : String :=
  "CarModel with id: " ++ toString car_model_id ++ " was not found"

/-- `read_car_model` (src/main.py lines 225-232): `SELECT * FROM car_models
WHERE id = ?` with `fetchone`; 404 when no row comes back. -/
def read_car_model (db : CarDB) (car_model_id : Nat) : Except PyError CarModelInDB :=
  match db.rows.find? (fun r => r.id == car_model_id) with
  | none => .error (.http 404 (readNotFoundDetail car_model_id) false)
  | some r => .ok (rowToCarModelInDB r)

/-- `update_car_model` (src/main.py lines 235-247): `UPDATE car_models SET
manufacturer, model, year, price WHERE id = ?` (every matching row gets the
four fields; `image_path` and `id` are untouched), commit, then 404 when
`cursor.rowcount` is 0, else return the body plus the id. -/
def update_car_model (db : CarDB) (car_model_id : Nat) (cm : CarModel) :
    CarDB × Except PyError CarModelInDB :=
  let rows := db.rows.map (fun r =>
    if r.id = car_model_id then
      { r with manufacturer := cm.manufacturer, model := cm.model,
               year := cm.year, price := cm.price }
    else r)
  let rowcount := (db.rows.filter (fun r => r.id == car_model_id)).length
  ({ db with rows := rows },
   if rowcount = 0 then
     .error (.http 404 "CarModel not found" false)
   else
     .ok { id := car_model_id, manufacturer := cm.manufacturer,
           model := cm.model, year := cm.year, price := cm.price })

/-- `delete_car_model` (src/main.py lines 250-259, route status 202):
`DELETE FROM car_models WHERE id = ?`, commit, 404 when `cursor.rowcount`
is 0, else the `ok` acknowledgement. -/
def delete_car_model (db : CarDB) (car_model_id : Nat) :
    CarDB × Except PyError Unit :=
  let rows := db.rows.filter (fun r => !(r.id == car_model_id))
  let rowcount := (db.rows.filter (fun r => r.id == car_model_id)).length
  ({ db with rows := rows },
   if rowcount = 0 then
     .error (.http 404 "CarModel not found" false)
   else
     .ok ())

/-- Handler state for the image routes: the `car_models` database plus the
set of file paths written under `IMAGE_DIR` (a write appends the path; an
existing file would be overwritten, which the list model keeps as a second
occurrence of the same path). -/
structure AppState where
  db : CarDB
  files : List String
deriving DecidableEq, Repr

/-- Info string returned by the POST image route (source wraps the two
values in single quotes, elided here). -/
def uploadInfo (car_model_id : Nat) (filename : String) : String :=
  "image of Car Model id:" ++ toString car_model_id ++ " was set to " ++ filename

/-- Info string returned by the PUT image route on success. -/
def updateImageInfo (car_model_id : Nat) (filename : String) : String :=
  "image of Car Model id:" ++ toString car_model_id ++ " was updated to " ++ filename

/-- `upload_car_model_image` (src/main.py lines 262-272, route status 201):
write the uploaded bytes to `IMAGE_DIR/<filename>`, then `UPDATE car_models
SET image_path = ? WHERE id = ?` with NO rowcount check: the handler
reports success whether or not any row matched. -/
def upload_car_model_image (st : AppState) (car_model_id : Nat)
    (filename : String) : AppState × Except PyError String :=
  let file_location := IMAGE_DIR ++ "/" ++ filename
  let files := st.files ++ [file_location]
  let rows := st.db.rows.map (fun r =>
    if r.id = car_model_id then { r with image_path := some file_location } else r)
  ({ db := { st.db with rows := rows }, files := files },
   .ok (uploadInfo car_model_id filename))

/-- `update_car_model_image` (src/main.py lines 275-290, route status 202):
same file write and UPDATE as the POST variant, but 404 when
`cursor.rowcount` is 0 — the file has already been written and the commit
already happened when the check runs. -/
def update_car_model_image (st : AppState) (car_model_id : Nat)
    (filename : String) : AppState × Except PyError String :=
  let file_location := IMAGE_DIR ++ "/" ++ filename
  let files := st.files ++ [file_location]
  let rows := st.db.rows.map (fun r =>
    if r.id = car_model_id then { r with image_path := some file_location } else r)
  let rowcount := (st.db.rows.filter (fun r => r.id == car_model_id)).length
  ({ db := { st.db with rows := rows }, files := files },
   if rowcount = 0 then
     .error (.http 404 "CarModel not found" false)
   else
     .ok (updateImageInfo car_model_id filename))

/-! Theorems for the claims. -/

/-- A map whose function fixes every element of the list is the
identity. -/
theorem map_fixpoint {α : Type} {f : α → α} {l : List α}
    (h : ∀ a ∈ l, f a = a) : List.map f l = l := by
  induction l with
  | nil => rfl
  | cons a as ih =>
    simp only [List.map_cons]
    rw [h a (List.mem_cons_self a as), ih (fun x hx => h x (List.mem_cons_of_mem a hx))]

/-- C1: the claim says `authenticate_user` (as driven by the `/token`
handler) fails with Unauthorized both when no user with the given username
exists and when the stored hash does not verify.  The code violates the
first half: for a non-empty username with no matching row, `get_user`
evaluates `UserInDB(**None)` (its guard reads `if username:` instead of
`if user:`), raising a `TypeError` that escapes the handler as a 500 — not
the 401 the claim (and the dead `if not user:` branch of
`authenticate_user`) intends.  This theorem evaluates the login flow at
such an input and notes that the result differs from every 401 response. -/
theorem C1_absent_user_type_error :
    login_for_access_token (fun _ _ => false) [] 0 "ghost" "secret"
        = .error (.typeError typeErrorMsg)
    ∧ ∀ detail challenge,
        PyError.typeError typeErrorMsg ≠ PyError.http 401 detail challenge := by
  refine ⟨rfl, ?_⟩
  intro _ _ h
  exact PyError.noConfusion h

/-- C2 counterexample: with no `expires_delta` override, the token issued at
`now = 0` for subject alice carries `exp = 900` (15 minutes), not the
`0 + 30 * 60 = 1800` the claim asserts. -/
theorem C2_counterexample :
    ¬ ((create_access_token 0 (some "alice") none).claims.exp = 0 + 30 * 60) := by
  decide

/-- C2 (amended): when the caller passes no `expires_delta`, the issued
token's `exp` claim equals `now` plus 15 minutes (the hard-coded
`timedelta(minutes=15)` default branch; the 30-minute
`ACCESS_TOKEN_EXPIRE_MINUTES` figure is only ever passed explicitly by the
`/token` handler). -/
theorem C2_default_expiry (now : Int) (dataSub : Option String) :
    (create_access_token now dataSub none).claims.exp = now + 15 * 60 := rfl

/-- C3: for every subject string and every ttl > 0, decoding the token just
issued by `create_access_token` — with the key, algorithm list and clock
that `get_current_user` uses — succeeds and returns the same subject in the
`sub` claim; moreover `get_current_user` itself, on a store containing that
(non-empty) username, resolves the token to that user. -/
theorem C3_issue_then_verify (subject : String) (ttl now : Int) (h : 0 < ttl) :
    jwtDecode (create_access_token now (some subject) (some ttl)) SECRET_KEY [ALGORITHM] now
        = some { sub := some subject, exp := now + ttl }
    ∧ ∀ r : UserRow, r.username = subject → subject ≠ "" →
        get_current_user [r] now (create_access_token now (some subject) (some ttl))
          = .ok (rowToUserInDB r) := by
  have hne : ttl ≠ 0 := by omega
  have htok : create_access_token now (some subject) (some ttl)
      = { claims := { sub := some subject, exp := now + ttl },
          key := SECRET_KEY, alg := ALGORITHM } := by
    simp [create_access_token, hne]
  have hdec : jwtDecode (create_access_token now (some subject) (some ttl))
      SECRET_KEY [ALGORITHM] now = some { sub := some subject, exp := now + ttl } := by
    rw [htok]
    simp only [jwtDecode]
    rw [if_pos]
    exact ⟨trivial, List.mem_singleton.mpr rfl, by omega⟩
  refine ⟨hdec, ?_⟩
  intro r hr hs
  have hu : get_user [r] subject = .ok (some (rowToUserInDB r)) := by
    simp [get_user, hs, List.find?_cons, hr]
  simp [get_current_user, hdec, hu]

def aliceRow : UserRow :=
  { id := 1, username := "alice", email := "alice@example.com", full_name := none,
    hashed_password := "hash", disabled := false }

/-- C3 witness: concrete round trip for alice with a 30-minute ttl. -/
theorem C3_issue_then_verify_witness :
    get_current_user [aliceRow] 0 (create_access_token 0 (some "alice") (some 1800))
      = .ok (rowToUserInDB aliceRow) :=
  (C3_issue_then_verify "alice" 1800 0 (by decide)).2 aliceRow rfl (by decide)

/-- C4: `get_current_user` answers the 401 `credential_exception` (which
carries the WWW-Authenticate Bearer header) whenever the token's `exp` has
elapsed, and likewise on any decode error (wrong key or disallowed
algorithm in this model) or a missing `sub` claim. -/
theorem C4_verify_failure_unauthorized (udb : List UserRow) (now : Int) (token : JWT)
    (h : token.claims.exp < now ∨ token.key ≠ SECRET_KEY ∨ token.alg ≠ ALGORITHM
         ∨ token.claims.sub = none) :
    get_current_user udb now token = .error credential_exception := by
  by_cases hc : token.key = SECRET_KEY ∧ token.alg ∈ [ALGORITHM] ∧ now ≤ token.claims.exp
  · have hdec : jwtDecode token SECRET_KEY [ALGORITHM] now = some token.claims := by
      simp only [jwtDecode]
      rw [if_pos hc]
    have hsub : token.claims.sub = none := by
      rcases h with h | h | h | h
      · exact absurd hc.2.2 (not_le.mpr h)
      · exact absurd hc.1 h
      · exact absurd (List.mem_singleton.mp hc.2.1) h
      · exact h
    simp [get_current_user, hdec, hsub]
  · have hdec : jwtDecode token SECRET_KEY [ALGORITHM] now = none := by
      simp only [jwtDecode]
      rw [if_neg hc]
    simp [get_current_user, hdec]

def expiredToken : JWT :=
  { claims := { sub := some "alice", exp := 10 }, key := SECRET_KEY, alg := ALGORITHM }

/-- C4 witness: a correctly signed token whose `exp = 10` has elapsed at
`now = 100` is rejected with the 401 challenge. -/
theorem C4_verify_failure_unauthorized_witness :
    get_current_user [aliceRow] 100 expiredToken = .error credential_exception :=
  C4_verify_failure_unauthorized [aliceRow] 100 expiredToken (Or.inl (by decide))

/-- C5: creating a car model from the four required fields and then reading
the returned id yields the very record the create handler answered; that
record carries the request's four field values and an id no existing row
has.  `hfresh` is the SQLite AUTOINCREMENT invariant (every stored id is
below the counter), which holds of every reachable store. -/
theorem C5_create_then_read (db : CarDB) (cm : CarModel)
    (hfresh : ∀ r ∈ db.rows, r.id < db.nextId) :
    read_car_model (create_car_model db cm).1 (create_car_model db cm).2.id
        = .ok (create_car_model db cm).2
    ∧ (create_car_model db cm).2.manufacturer = cm.manufacturer
    ∧ (create_car_model db cm).2.model = cm.model
    ∧ (create_car_model db cm).2.year = cm.year
    ∧ (create_car_model db cm).2.price = cm.price
    ∧ ∀ r ∈ db.rows, r.id ≠ (create_car_model db cm).2.id := by
  have hnone : db.rows.find? (fun r => r.id == db.nextId) = none := by
    apply List.find?_eq_none.mpr
    intro r hr
    have := hfresh r hr
    simp only [beq_iff_eq]
    omega
  refine ⟨?_, rfl, rfl, rfl, rfl, ?_⟩
  · simp [read_car_model, create_car_model, List.find?_append, hnone, rowToCarModelInDB]
  · intro r hr
    have := hfresh r hr
    simp only [create_car_model]
    omega

def rowW1 : CarRow :=
  { id := 1, manufacturer := "Acme", model := "X1", year := 2020, price := 19999.99,
    image_path := some "uploaded_images/x1.png" }

def dbW : CarDB := { rows := [rowW1], nextId := 2 }

def cmW : CarModel :=
  { manufacturer := "Bolt", model := "Y2", year := 2021, price := 25000 }

/-- C5 witness: a store holding one row (id 1, counter 2) satisfies the
AUTOINCREMENT invariant, and create-then-read round-trips there. -/
theorem C5_create_then_read_witness :
    (∀ r ∈ dbW.rows, r.id < dbW.nextId)
    ∧ read_car_model (create_car_model dbW cmW).1 (create_car_model dbW cmW).2.id
        = .ok (create_car_model dbW cmW).2 :=
  ⟨by decide, (C5_create_then_read dbW cmW (by decide)).1⟩

/-- C6: updating a nonexistent id answers a plain 404 (no Bearer challenge)
and the store — rows and counter — is exactly what it was. -/
theorem C6_update_missing (db : CarDB) (car_model_id : Nat) (cm : CarModel)
    (h : ∀ r ∈ db.rows, r.id ≠ car_model_id) :
    (update_car_model db car_model_id cm).2
        = .error (.http 404 "CarModel not found" false)
    ∧ (update_car_model db car_model_id cm).1 = db := by
  have hcount : (db.rows.filter (fun r => r.id == car_model_id)).length = 0 := by
    rw [List.length_eq_zero, List.filter_eq_nil_iff]
    intro r hr
    simp [h r hr]
  have hmap : db.rows.map (fun r =>
      if r.id = car_model_id then
        { r with manufacturer := cm.manufacturer, model := cm.model,
                 year := cm.year, price := cm.price }
      else r) = db.rows := map_fixpoint (fun r hr => by simp [h r hr])
  constructor
  · simp [update_car_model, hcount]
  · simp [update_car_model, hmap]

/-- C6 witness: no row of the one-row store has id 99. -/
theorem C6_update_missing_witness :
    (update_car_model dbW 99 cmW).2 = .error (.http 404 "CarModel not found" false)
    ∧ (update_car_model dbW 99 cmW).1 = dbW :=
  C6_update_missing dbW 99 cmW (by decide)

/-- C7: deleting a nonexistent id answers 404; deleting an existing id
succeeds (the 202 acknowledgement) and a subsequent read of that id answers
the read handler's 404. -/
theorem C7_delete_then_read (db : CarDB) (car_model_id : Nat) :
    ((∀ r ∈ db.rows, r.id ≠ car_model_id) →
        (delete_car_model db car_model_id).2
          = .error (.http 404 "CarModel not found" false))
    ∧ (∀ r ∈ db.rows, r.id = car_model_id →
        (delete_car_model db car_model_id).2 = .ok ()
        ∧ read_car_model (delete_car_model db car_model_id).1 car_model_id
            = .error (.http 404 (readNotFoundDetail car_model_id) false)) := by
  constructor
  · intro h
    have hcount : (db.rows.filter (fun r => r.id == car_model_id)).length = 0 := by
      rw [List.length_eq_zero, List.filter_eq_nil_iff]
      intro r hr
      simp [h r hr]
    simp [delete_car_model, hcount]
  · intro r hr hid
    have hmem : r ∈ db.rows.filter (fun x => x.id == car_model_id) :=
      List.mem_filter.mpr ⟨hr, by simp [hid]⟩
    have hcount : (db.rows.filter (fun x => x.id == car_model_id)).length ≠ 0 := by
      intro h0
      rw [List.length_eq_zero] at h0
      rw [h0] at hmem
      exact List.not_mem_nil r hmem
    have hfind : ((delete_car_model db car_model_id).1.rows).find?
        (fun x => x.id == car_model_id) = none := by
      apply List.find?_eq_none.mpr
      intro x hx
      have hx2 : x ∈ db.rows ∧ ¬ x.id = car_model_id := by
        simpa [delete_car_model] using hx
      simpa using hx2.2
    exact ⟨by simp [delete_car_model, hcount],
           by simp [read_car_model, hfind]⟩

/-- C7 witness: id 1 exists in the one-row store; delete succeeds and the
subsequent read answers 404. -/
theorem C7_delete_then_read_witness :
    (delete_car_model dbW 1).2 = .ok ()
    ∧ read_car_model (delete_car_model dbW 1).1 1
        = .error (.http 404 (readNotFoundDetail 1) false) :=
  (C7_delete_then_read dbW 1).2 rowW1 (by simp [dbW]) rfl

/-- C10: a successful update of an existing id replaces exactly the four
mutable fields of the matching row — its `id` and `image_path` ride along
unchanged in the `{ r with ... }` record — while every row with a
different id passes through untouched (in both directions) and the row
count is preserved. -/
theorem C10_update_frame (db : CarDB) (car_model_id : Nat) (cm : CarModel)
    (hex : ∃ r ∈ db.rows, r.id = car_model_id) :
    (∃ out, (update_car_model db car_model_id cm).2 = .ok out)
    ∧ (∀ r ∈ db.rows, r.id ≠ car_model_id →
        r ∈ (update_car_model db car_model_id cm).1.rows)
    ∧ (∀ r ∈ db.rows, r.id = car_model_id →
        { r with manufacturer := cm.manufacturer, model := cm.model,
                 year := cm.year, price := cm.price }
          ∈ (update_car_model db car_model_id cm).1.rows)
    ∧ (∀ r2 ∈ (update_car_model db car_model_id cm).1.rows,
        r2.id ≠ car_model_id → r2 ∈ db.rows)
    ∧ (update_car_model db car_model_id cm).1.rows.length = db.rows.length := by
  obtain ⟨r0, hr0, hid0⟩ := hex
  have hmem : r0 ∈ db.rows.filter (fun x => x.id == car_model_id) :=
    List.mem_filter.mpr ⟨hr0, by simp [hid0]⟩
  have hcount : (db.rows.filter (fun x => x.id == car_model_id)).length ≠ 0 := by
    intro h0
    rw [List.length_eq_zero] at h0
    rw [h0] at hmem
    exact List.not_mem_nil r0 hmem
  refine ⟨⟨{ id := car_model_id, manufacturer := cm.manufacturer, model := cm.model,
             year := cm.year, price := cm.price }, by simp [update_car_model, hcount]⟩,
         ?_, ?_, ?_, ?_⟩
  · intro r hr hne
    have hm := List.mem_map_of_mem (fun x : CarRow =>
      if x.id = car_model_id then
        { x with manufacturer := cm.manufacturer, model := cm.model,
                 year := cm.year, price := cm.price }
      else x) hr
    simp only [if_neg hne] at hm
    simpa [update_car_model] using hm
  · intro r hr hid
    have hm := List.mem_map_of_mem (fun x : CarRow =>
      if x.id = car_model_id then
        { x with manufacturer := cm.manufacturer, model := cm.model,
                 year := cm.year, price := cm.price }
      else x) hr
    simp only [if_pos hid] at hm
    simpa [update_car_model] using hm
  · intro r2 hr2 hne
    obtain ⟨a, ha, hfa⟩ := List.mem_map.mp (by simpa [update_car_model] using hr2)
    by_cases hcase : a.id = car_model_id
    · rw [if_pos hcase] at hfa
      have : r2.id = car_model_id := by
        rw [← hfa]
        exact hcase
      exact absurd this hne
    · rw [if_neg hcase] at hfa
      rw [← hfa]
      exact ha
  · simp [update_car_model, List.length_map]

/-- C10 witness: id 1 exists in the one-row store, the update succeeds and
keeps the row count. -/
theorem C10_update_frame_witness :
    (∃ r ∈ dbW.rows, r.id = 1)
    ∧ (∃ out, (update_car_model dbW 1 cmW).2 = .ok out)
    ∧ (update_car_model dbW 1 cmW).1.rows.length = dbW.rows.length := by
  have hex : ∃ r ∈ dbW.rows, r.id = 1 := ⟨rowW1, by simp [dbW], rfl⟩
  exact ⟨hex, (C10_update_frame dbW 1 cmW hex).1,
         (C10_update_frame dbW 1 cmW hex).2.2.2.2⟩

def db5 : CarDB :=
  { rows :=
      [ { id := 1, manufacturer := "A", model := "M1", year := 2001, price := 5,
          image_path := none },
        { id := 2, manufacturer := "B", model := "M2", year := 2002, price := 9,
          image_path := none },
        { id := 3, manufacturer := "C", model := "M3", year := 2003, price := 7,
          image_path := none },
        { id := 4, manufacturer := "D", model := "M4", year := 2004, price := 3,
          image_path := none },
        { id := 5, manufacturer := "E", model := "M5", year := 2005, price := 8,
          image_path := none } ],
    nextId := 6 }

/-- C8 counterexample: `limit` is a plain `int` query parameter and is
passed straight to SQLite `LIMIT ?`, where a negative value means NO bound;
on a 5-row store, `limit = -1` succeeds (HTTP 200) with all 5 rows, so the
universally quantified reading of "returns at most limit rows" is false. -/
theorem C8_counterexample :
    read_car_models db5 (-1) none none
        = QueryResult.results (db5.rows.map rowToCarModelInDB)
    ∧ ¬ (((db5.rows.map rowToCarModelInDB).length : Int) ≤ -1) := by
  exact ⟨rfl, by decide⟩

/-- The serialised result of an interpreted `LIMIT ?` query has at most
`limit` rows when `limit` is non-negative. -/
theorem length_sqlLimit_le (limit : Int) (hl : 0 ≤ limit) (rows : List CarRow) :
    (((sqlLimit limit rows).map rowToCarModelInDB).length : Int) ≤ limit := by
  simp only [List.length_map, sqlLimit, if_neg (by omega : ¬ limit < 0),
             List.length_take]
  omega

/-- `LIMIT 2` on 5 rows returns exactly 2. -/
theorem length_sqlLimit_two (rows : List CarRow) (h5 : rows.length = 5) :
    ((sqlLimit 2 rows).map rowToCarModelInDB).length = 2 := by
  simp only [List.length_map, sqlLimit, if_neg (by omega : ¬ (2 : Int) < 0),
             List.length_take, h5]
  decide

/-- Sorting does not change the row count. -/
theorem length_orderRows (col : SortColumn) (d : Option Bool)
    (rows : List CarRow) : (orderRows col d rows).length = rows.length := by
  unfold orderRows
  split
  · exact List.length_mergeSort rows
  · exact List.length_mergeSort rows

/-- `LIMIT ?` returns a sublist of its input for every limit. -/
theorem sqlLimit_sublist (limit : Int) (rows : List CarRow) :
    (sqlLimit limit rows).Sublist rows := by
  unfold sqlLimit
  split
  · exact List.Sublist.refl rows
  · exact List.take_sublist _ rows

/-- C8 (amended): whenever the assembled query stays inside the interpreted
fragment — `sort_by` absent, empty, or one of the five documented column
names, which is every value the route's OpenAPI enum advertises — the
handler returns at most `limit` rows for every non-negative limit (a
negative limit reaches SQLite `LIMIT`, which treats it as unbounded), and
exactly 2 rows when `limit = 2` on a 5-row store; with `sort_by = "price"`
and `descending = true` the returned rows are in non-increasing price
order.  No bound holds for unrestricted `sort_by`: FastAPI's `enum=` does
not validate, so any other string is f-string-interpolated raw into the
SQL — the last two conjuncts exhibit the crafted value
`"(SELECT 1 LIMIT ?) --"` whose `--` comments out the trailing `LIMIT ?`,
an execution the model records as `unmodelled` raw SQL rather than as a
bounded row list. -/
theorem C8_list_limit_and_sort (db : CarDB) (limit : Int) (hl : 0 ≤ limit)
    (sort_by : Option String) (descending : Option Bool) :
    (∀ l, read_car_models db limit sort_by descending = QueryResult.results l →
        ((l.length : Int) ≤ limit
         ∧ (limit = 2 → db.rows.length = 5 → l.length = 2)))
    ∧ (∃ l, read_car_models db limit (some "price") (some true)
            = QueryResult.results l
        ∧ List.Pairwise (fun a b : CarModelInDB => b.price ≤ a.price) l)
    ∧ finalQuery (some "(SELECT 1 LIMIT ?) --") (some false)
        = "SELECT * FROM car_models ORDER BY (SELECT 1 LIMIT ?) -- ASC LIMIT ?"
    ∧ read_car_models db limit (some "(SELECT 1 LIMIT ?) --") descending
        = QueryResult.unmodelled
            (finalQuery (some "(SELECT 1 LIMIT ?) --") descending) := by
  refine ⟨?_, ?_, ?_, ?_⟩
  · intro l hres
    cases sort_by with
    | none =>
      simp only [read_car_models] at hres
      injection hres with h
      subst h
      exact ⟨length_sqlLimit_le limit hl db.rows,
             fun h2 h5 => by subst h2; exact length_sqlLimit_two db.rows h5⟩
    | some s =>
      by_cases hs : s = ""
      · simp only [read_car_models, if_pos hs] at hres
        injection hres with h
        subst h
        exact ⟨length_sqlLimit_le limit hl db.rows,
               fun h2 h5 => by subst h2; exact length_sqlLimit_two db.rows h5⟩
      · cases hcol : columnOf s with
        | some col =>
          simp only [read_car_models, if_neg hs, hcol] at hres
          injection hres with h
          subst h
          refine ⟨length_sqlLimit_le limit hl _, fun h2 h5 => ?_⟩
          subst h2
          exact length_sqlLimit_two _ (by rw [length_orderRows, h5])
        | none =>
          simp only [read_car_models, if_neg hs, hcol] at hres
          exact QueryResult.noConfusion hres
  · have htrans : ∀ a b c : CarRow,
        columnLe .price b a = true → columnLe .price c b = true →
          columnLe .price c a = true := by
      intro a b c hab hbc
      simp only [columnLe, decide_eq_true_eq] at hab hbc ⊢
      exact le_trans hbc hab
    have htotal : ∀ a b : CarRow,
        (columnLe .price b a || columnLe .price a b) = true := by
      intro a b
      rcases le_total a.price b.price with h | h <;> simp [columnLe, h]
    have hsorted := @List.sorted_mergeSort CarRow
      (fun a b : CarRow => columnLe SortColumn.price b a)
      htrans htotal db.rows
    have hsorted2 : List.Pairwise (fun a b : CarRow => b.price ≤ a.price)
        (db.rows.mergeSort (fun a b => columnLe SortColumn.price b a)) :=
      hsorted.imp (fun h => by simpa [columnLe] using h)
    refine ⟨(sqlLimit limit
        (orderRows SortColumn.price (some true) db.rows)).map rowToCarModelInDB,
      ?_, ?_⟩
    · have hc : columnOf "price" = some SortColumn.price := by decide
      simp only [read_car_models, if_neg (by decide : ¬ ("price" = "")), hc]
    · have hore : orderRows SortColumn.price (some true) db.rows
          = db.rows.mergeSort (fun a b => columnLe SortColumn.price b a) := by
        simp [orderRows]
      rw [hore, List.pairwise_map]
      exact List.Pairwise.sublist (sqlLimit_sublist _ _)
        (hsorted2.imp (fun h => by simpa [rowToCarModelInDB] using h))
  · rfl
  · have hc : columnOf "(SELECT 1 LIMIT ?) --" = none := by decide
    simp only [read_car_models,
               if_neg (by decide : ¬ ("(SELECT 1 LIMIT ?) --" = "")), hc]

/-- C8 witness: on the 5-row store, limit 2 with price descending returns
a concrete 2-row result in non-increasing price order, and the bare query
at limit 2 returns exactly 2 of the 5 rows. -/
theorem C8_list_limit_and_sort_witness :
    (0 : Int) ≤ 2
    ∧ (∃ l, read_car_models db5 2 (some "price") (some true)
            = QueryResult.results l
        ∧ List.Pairwise (fun a b : CarModelInDB => b.price ≤ a.price) l)
    ∧ ((db5.rows.take 2).map rowToCarModelInDB).length = 2 :=
  ⟨by decide,
   (C8_list_limit_and_sort db5 2 (by decide) (some "price") (some true)).2.1,
   (((C8_list_limit_and_sort db5 2 (by decide) none none).1
       ((db5.rows.take 2).map rowToCarModelInDB) rfl).2 rfl rfl)⟩

/-- C9: on an id with no matching row, the PUT image handler answers 404 —
but only after the file write, which survives in the new state — whereas
the POST image handler has no rowcount check: it reports success with its
info payload while the table is left exactly as it was, so no row records
the freshly written path. -/
theorem C9_image_upload_missing (st : AppState) (car_model_id : Nat)
    (filename : String) (h : ∀ r ∈ st.db.rows, r.id ≠ car_model_id) :
    ((update_car_model_image st car_model_id filename).2
        = .error (.http 404 "CarModel not found" false)
      ∧ (IMAGE_DIR ++ "/" ++ filename)
          ∈ (update_car_model_image st car_model_id filename).1.files)
    ∧ ((upload_car_model_image st car_model_id filename).2
        = .ok (uploadInfo car_model_id filename)
      ∧ (upload_car_model_image st car_model_id filename).1.db = st.db
      ∧ (IMAGE_DIR ++ "/" ++ filename)
          ∈ (upload_car_model_image st car_model_id filename).1.files) := by
  have hcount : (st.db.rows.filter (fun r => r.id == car_model_id)).length = 0 := by
    rw [List.length_eq_zero, List.filter_eq_nil_iff]
    intro r hr
    simp [h r hr]
  have hmap : st.db.rows.map (fun r =>
      if r.id = car_model_id then
        { r with image_path := some (IMAGE_DIR ++ "/" ++ filename) }
      else r) = st.db.rows := map_fixpoint (fun r hr => by simp [h r hr])
  refine ⟨⟨?_, ?_⟩, ?_, ?_, ?_⟩
  · simp [update_car_model_image, hcount]
  · simp [update_car_model_image]
  · simp [upload_car_model_image]
  · simp [upload_car_model_image, hmap]
  · simp [upload_car_model_image]

def stW : AppState := { db := dbW, files := [] }

/-- C9 witness: id 99 matches no row of the one-row store; PUT answers 404,
POST answers its success payload with the table untouched. -/
theorem C9_image_upload_missing_witness :
    (update_car_model_image stW 99 "pic.png").2
        = .error (.http 404 "CarModel not found" false)
    ∧ (upload_car_model_image stW 99 "pic.png").2 = .ok (uploadInfo 99 "pic.png")
    ∧ (upload_car_model_image stW 99 "pic.png").1.db = stW.db := by
  have h : ∀ r ∈ stW.db.rows, r.id ≠ 99 := by decide
  exact ⟨(C9_image_upload_missing stW 99 "pic.png" h).1.1,
         (C9_image_upload_missing stW 99 "pic.png" h).2.1,
         (C9_image_upload_missing stW 99 "pic.png" h).2.2.1⟩

end CarService
